import Mathlib

/-!
Verification of the Cutzamala water-storage backend.

This file gives a shallow embedding of the parts of the backend that the
checked properties are about: the Python `datetime.date` calendar arithmetic,
Python numeric coercions (`int`, `round`, `float`), the aggregation service
(`api/services/database_aggregation_service.py`), the database cleanup and
repair scripts (`database_cleanup.py`, `fix_total_mm3.py`), the data service
query builder and reservoir filter (`src/api/services/database_service.py`)
and the request validator (`src/api/models/request.py`).

Numeric database values are modelled as exact rationals (`ℚ`); Python floats
are idealized to exact arithmetic, so `float(x)` on a database value is the
identity.  Strings are Lean `String`s; the Python string operations used by
the code (`lower`, `upper`, `strip`, `split(',')`) are re-implemented
structurally over `String.data` so that they compute.
-/

/-! Section: Python primitives -/

/-- Python `str.lower()` (ASCII, which covers every string the code compares). -/
def pyLower (s : String) : String := ⟨s.data.map Char.toLower⟩

/-- Python `str.upper()` (ASCII). -/
def pyUpper (s : String) : String := ⟨s.data.map Char.toUpper⟩

/-- Python `str.strip()`: remove leading and trailing whitespace. -/
def pyStrip (s : String) : String :=
  ⟨((s.data.dropWhile Char.isWhitespace).reverse.dropWhile Char.isWhitespace).reverse⟩

/-- Helper for `pySplitComma`: prepend a character to the first chunk. -/
def consChunk (c : Char) : List (List Char) → List (List Char)
  | [] => [[c]]
  | h :: t => (c :: h) :: t

/-- Python `s.split(',')`: split on every comma; `"".split(',') = [""]`. -/
def pySplitComma (s : String) : List String :=
  (s.data.foldr (fun c acc => if c = ',' then [] :: acc else consChunk c acc) [[]]).map
    (fun l => ⟨l⟩)

/-- Python `int()` applied to a real number: truncation toward zero. -/
def pyInt (q : ℚ) : Int := if q < 0 then ⌈q⌉ else ⌊q⌋

/-- Python `round()` to an integer: round half to even (banker's rounding),
on the idealized exact value. -/
def pyRound (q : ℚ) : Int :=
  if q - ⌊q⌋ < 1/2 then ⌊q⌋
  else if 1/2 < q - ⌊q⌋ then ⌊q⌋ + 1
  else if ⌊q⌋ % 2 = 0 then ⌊q⌋ else ⌊q⌋ + 1

/-- Python `round(x, 2)`: round to two decimal places, half to even. -/
def round2 (q : ℚ) : ℚ := (pyRound (q * 100) : ℚ) / 100

/-- `sum(xs) / len(xs)` over rationals (the arithmetic mean; `0` on `[]`,
which the code never hits because groups are non-empty). -/
def pyMean (l : List ℚ) : ℚ := l.sum / (l.length : ℚ)

/-- Truthiness of a Python `Optional[int]`: `None` and `0` are falsy. -/
def pyTruthyInt : Option Int → Bool
  | none => false
  | some n => decide (n ≠ 0)

/-! Section: Calendar arithmetic (`datetime.date`)

A date is a `(year, month, day)` triple.  `toDays` is the standard civil
calendar to day-count conversion (days since 1970-01-01, Howard Hinnant's
`days_from_civil`), and `fromDays` its inverse; together they model the
ordinal arithmetic `datetime.date` performs for subtraction, comparison and
`timedelta` shifts.  `pyWeekday` is `date.weekday()` (Monday = 0 … Sunday = 6);
1970-01-01 was a Thursday (= 3). -/

structure PyDate where
  year : Int
  month : Int
  day : Int
deriving DecidableEq, Inhabited

/-- Days since 1970-01-01 of a civil date (proleptic Gregorian). -/
def toDays (dt : PyDate) : Int :=
  let y : Int := if dt.month ≤ 2 then dt.year - 1 else dt.year
  let era : Int := Int.fdiv y 400
  let yoe : Int := y - era * 400
  let mp : Int := if dt.month ≤ 2 then dt.month + 9 else dt.month - 3
  let doy : Int := Int.fdiv (153 * mp + 2) 5 + dt.day - 1
  let doe : Int := yoe * 365 + Int.fdiv yoe 4 - Int.fdiv yoe 100 + doy
  era * 146097 + doe - 719468

/-- Civil date of a day count (inverse of `toDays`). -/
def fromDays (z0 : Int) : PyDate :=
  let z : Int := z0 + 719468
  let era : Int := Int.fdiv z 146097
  let doe : Int := z - era * 146097
  let yoe : Int :=
    Int.fdiv (doe - Int.fdiv doe 1460 + Int.fdiv doe 36524 - Int.fdiv doe 146096) 365
  let y : Int := yoe + era * 400
  let doy : Int := doe - (365 * yoe + Int.fdiv yoe 4 - Int.fdiv yoe 100)
  let mp : Int := Int.fdiv (5 * doy + 2) 153
  let d : Int := doy - Int.fdiv (153 * mp + 2) 5 + 1
  let m : Int := if mp < 10 then mp + 3 else mp - 9
  { year := if m ≤ 2 then y + 1 else y, month := m, day := d }

/-- `date.weekday()`: Monday = 0 … Sunday = 6. -/
def pyWeekday (t : Int) : Int := (t + 3) % 7

/-- Zero-pad to two digits (month and day in `str(date)`). -/
def pad2 (n : Int) : String := if n < 10 then "0" ++ toString n else toString n

/-- Zero-pad to four digits (year in `str(date)`). -/
def pad4 (n : Int) : String :=
  if n < 10 then "000" ++ toString n
  else if n < 100 then "00" ++ toString n
  else if n < 1000 then "0" ++ toString n
  else toString n

/-- Python `str(date)` / `date.strftime('%Y-%m-%d')`: ISO format. -/
def dateStr (d : PyDate) : String :=
  pad4 d.year ++ "-" ++ pad2 d.month ++ "-" ++ pad2 d.day

/-- `date.strftime('%B')`: full English month name. -/
def strftimeB (m : Int) : String :=
  if m = 1 then "January" else if m = 2 then "February" else if m = 3 then "March"
  else if m = 4 then "April" else if m = 5 then "May" else if m = 6 then "June"
  else if m = 7 then "July" else if m = 8 then "August" else if m = 9 then "September"
  else if m = 10 then "October" else if m = 11 then "November"
  else if m = 12 then "December" else ""

/-! Section: `api/utils/date_utils.py` -/

/-- `get_week_start_end`: Sunday-anchored week window around a date
(`days_since_sunday = weekday + 1`, reset to `0` when it reaches `7`).
The returned dates are represented through their day counts. -/
def get_week_start_end (dt : PyDate) : PyDate × PyDate :=
  let dss0 : Int := pyWeekday (toDays dt) + 1
  let dss : Int := if dss0 = 7 then 0 else dss0
  (fromDays (toDays dt - dss), fromDays (toDays dt - dss + 6))


/-! Section: Data model of `cutzamala_readings` rows as seen by the aggregation service

`DataRow` is the dictionary produced by `DatabaseDataService.get_filtered_data`
and consumed by `DatabaseAggregationService`: one row of the `cutzamala_readings`
table.  The `date` column (an ISO `YYYY-MM-DD` string in the database) is
represented structurally as a `PyDate`; `datetime.fromisoformat` on it is the
identity in this embedding, and SQL / string comparison of two ISO dates is
comparison of their day counts. -/

structure DataRow where
  date : PyDate
  year : Int
  month : Int
  month_name : String
  day : Int
  valle_bravo_mm3 : ℚ
  valle_bravo_pct : ℚ
  valle_bravo_lluvia : ℚ
  villa_victoria_mm3 : ℚ
  villa_victoria_pct : ℚ
  villa_victoria_lluvia : ℚ
  el_bosque_mm3 : ℚ
  el_bosque_pct : ℚ
  el_bosque_lluvia : ℚ
  total_mm3 : ℚ
  total_pct : ℚ
  source_pdf : String
deriving DecidableEq, Inhabited

/-- Per-reservoir block of an API aggregation record. -/
structure ReservoirOut where
  storage_mm3 : ℚ
  percentage : ℚ
  rainfall : ℚ
deriving DecidableEq, Inhabited

/-- `system_totals` block of an API aggregation record. -/
structure SystemTotals where
  total_mm3 : Int
  total_percentage : ℚ
deriving DecidableEq, Inhabited

/-- One record of the aggregation service output (the dict built by
`aggregate_daily/weekly/monthly/yearly`). -/
structure AggRecord where
  date : String
  year : Int
  month : Int
  month_name : String
  day : Int
  valle_de_bravo : ReservoirOut
  villa_victoria : ReservoirOut
  el_bosque : ReservoirOut
  system_totals : SystemTotals
  source_pdf : String
deriving DecidableEq, Inhabited

/-! Section: Insertion-ordered grouping (Python `dict` accumulation)

The aggregation methods accumulate rows into a `dict` keyed by a string key.
A Python dict keeps keys in first-insertion order and each key's list holds
that key's rows in input order, which is exactly: the deduplicated list of
keys in order of first occurrence, each paired with the input filtered to
that key. -/

/-- Append a key if it is not already present (dict key insertion). -/
def insertKey {K : Type} [DecidableEq K] (ks : List K) (k : K) : List K :=
  if k ∈ ks then ks else ks ++ [k]

/-- Keys in order of first occurrence. -/
def keysInOrder {α K : Type} [DecidableEq K] (key : α → K) (l : List α) : List K :=
  l.foldl (fun ks a => insertKey ks (key a)) []

/-- Group a list by a key, preserving dict insertion order. -/
def groupByKey {α K : Type} [DecidableEq K] (key : α → K) (l : List α) :
    List (K × List α) :=
  (keysInOrder key l).map (fun k => (k, l.filter (fun a => decide (key a = k))))

/-! Section: Stable insertion sort (Python `list.sort`)

The claims under check do not depend on the output order, only on membership;
`sortIns` is a structural insertion sort whose output is a permutation of its
input. -/

/-- Insert `x` into `l`, placing it before the first `y` with `le x y`. -/
def insertIns {α : Type} (le : α → α → Bool) (x : α) : List α → List α
  | [] => [x]
  | y :: ys => if le x y then x :: y :: ys else y :: insertIns le x ys

/-- Insertion sort with a boolean comparator. -/
def sortIns {α : Type} (le : α → α → Bool) : List α → List α
  | [] => []
  | x :: xs => insertIns le x (sortIns le xs)

/-- String comparison used by `list.sort(key=lambda x: x['date'], reverse=True)`:
code-point lexicographic order on the characters. -/
def strLtChars : List Char → List Char → Bool
  | [], [] => false
  | [], _ :: _ => true
  | _ :: _, [] => false
  | a :: as, b :: bs => if a < b then true else if b < a then false else strLtChars as bs

/-- Descending comparator on record `date` strings. -/
def dateDescLe (a b : AggRecord) : Bool := ! strLtChars a.date.data b.date.data

/-- Descending comparator on record years (`key=lambda x: int(x['year'])`). -/
def yearDescLe (a b : AggRecord) : Bool := decide (b.year ≤ a.year)

/-! Section: `DatabaseAggregationService` (`api/services/database_aggregation_service.py`) -/

namespace DatabaseAggregationService

/-- The record `aggregate_daily` builds for one database row: values copied
with `float()` (identity on exact rationals) and `int()` coercions. -/
def dailyRecord (row : DataRow) : AggRecord :=
  { date := dateStr row.date
    year := row.year
    month := row.month
    month_name := row.month_name
    day := row.day
    valle_de_bravo := ⟨row.valle_bravo_mm3, row.valle_bravo_pct, row.valle_bravo_lluvia⟩
    villa_victoria := ⟨row.villa_victoria_mm3, row.villa_victoria_pct, row.villa_victoria_lluvia⟩
    el_bosque := ⟨row.el_bosque_mm3, row.el_bosque_pct, row.el_bosque_lluvia⟩
    system_totals := ⟨pyInt row.total_mm3, row.total_pct⟩
    source_pdf := row.source_pdf }

/-- `aggregate_daily`: convert database records to API response format. -/
def aggregate_daily (data : List DataRow) : List AggRecord := data.map dailyRecord

/-- Week key of a row: `week_start = row_date - (weekday + 1) % 7` (the most
recent Sunday on or before the row's date); the dict key string
`f"{week_start} to {week_end}"` is in bijection with this day count. -/
def weekKeyOf (r : DataRow) : Int :=
  toDays r.date - (pyWeekday (toDays r.date) + 1) % 7

/-- The dict key string `f"{week_start} to {week_end}"` for a week start. -/
def weekKeyStr (s : Int) : String :=
  dateStr (fromDays s) ++ " to " ++ dateStr (fromDays (s + 6))

/-- Python `max(week_data, key=lambda x: x['date'])`: first row with maximal
date (ISO strings compare like day counts). -/
def latestRecord : List DataRow → DataRow
  | [] => default
  | h :: t => t.foldl (fun acc r => if toDays acc.date < toDays r.date then r else acc) h

/-- The weekly grouping dict. -/
def weeklyGroups (data : List DataRow) : List (Int × List DataRow) :=
  groupByKey weekKeyOf data

/-- The record built for one week group. -/
def weekRecord (k : Int) (g : List DataRow) : AggRecord :=
  let latest := latestRecord g
  { date := weekKeyStr k
    year := latest.year
    month := latest.month
    month_name := latest.month_name
    day := latest.day
    valle_de_bravo :=
      ⟨round2 (pyMean (g.map (fun r => r.valle_bravo_mm3))),
       round2 (pyMean (g.map (fun r => r.valle_bravo_pct))),
       round2 ((g.map (fun r => r.valle_bravo_lluvia)).sum)⟩
    villa_victoria :=
      ⟨round2 (pyMean (g.map (fun r => r.villa_victoria_mm3))),
       round2 (pyMean (g.map (fun r => r.villa_victoria_pct))),
       round2 ((g.map (fun r => r.villa_victoria_lluvia)).sum)⟩
    el_bosque :=
      ⟨round2 (pyMean (g.map (fun r => r.el_bosque_mm3))),
       round2 (pyMean (g.map (fun r => r.el_bosque_pct))),
       round2 ((g.map (fun r => r.el_bosque_lluvia)).sum)⟩
    system_totals :=
      ⟨pyRound (pyMean (g.map (fun r => (pyInt r.total_mm3 : ℚ)))),
       round2 (pyMean (g.map (fun r => r.total_pct)))⟩
    source_pdf := latest.source_pdf }

/-- `aggregate_weekly`: group by Sunday-anchored week, average storages and
percentages, sum rainfall, then sort by the week key string descending. -/
def aggregate_weekly (data : List DataRow) : List AggRecord :=
  if data = [] then []
  else sortIns dateDescLe ((weeklyGroups data).map (fun kg => weekRecord kg.1 kg.2))

/-- Month key of a row: the dict key string `f"{row['year']}-{row['month']:02d}"`
is in bijection with the `(year, month)` pair. -/
def monthKeyOf (r : DataRow) : Int × Int := (r.year, r.month)

/-- The dict key string for a month group. -/
def monthKeyStr (k : Int × Int) : String := toString k.1 ++ "-" ++ pad2 k.2

/-- The monthly grouping dict. -/
def monthlyGroups (data : List DataRow) : List ((Int × Int) × List DataRow) :=
  groupByKey monthKeyOf data

/-- The record built for one month group (`day` forced to 1). -/
def monthRecord (k : Int × Int) (g : List DataRow) : AggRecord :=
  let latest := latestRecord g
  { date := monthKeyStr k
    year := latest.year
    month := latest.month
    month_name := latest.month_name
    day := 1
    valle_de_bravo :=
      ⟨round2 (pyMean (g.map (fun r => r.valle_bravo_mm3))),
       round2 (pyMean (g.map (fun r => r.valle_bravo_pct))),
       round2 ((g.map (fun r => r.valle_bravo_lluvia)).sum)⟩
    villa_victoria :=
      ⟨round2 (pyMean (g.map (fun r => r.villa_victoria_mm3))),
       round2 (pyMean (g.map (fun r => r.villa_victoria_pct))),
       round2 ((g.map (fun r => r.villa_victoria_lluvia)).sum)⟩
    el_bosque :=
      ⟨round2 (pyMean (g.map (fun r => r.el_bosque_mm3))),
       round2 (pyMean (g.map (fun r => r.el_bosque_pct))),
       round2 ((g.map (fun r => r.el_bosque_lluvia)).sum)⟩
    system_totals :=
      ⟨pyRound (pyMean (g.map (fun r => (pyInt r.total_mm3 : ℚ)))),
       round2 (pyMean (g.map (fun r => r.total_pct)))⟩
    source_pdf := latest.source_pdf }

/-- `aggregate_monthly`. -/
def aggregate_monthly (data : List DataRow) : List AggRecord :=
  if data = [] then []
  else sortIns dateDescLe ((monthlyGroups data).map (fun kg => monthRecord kg.1 kg.2))

/-- Year key of a row (`str(row['year'])` is in bijection with the year). -/
def yearKeyOf (r : DataRow) : Int := r.year

/-- The yearly grouping dict. -/
def yearlyGroups (data : List DataRow) : List (Int × List DataRow) :=
  groupByKey yearKeyOf data

/-- The record built for one year group (`month`/`day` forced to December 31). -/
def yearRecord (k : Int) (g : List DataRow) : AggRecord :=
  let latest := latestRecord g
  { date := toString k
    year := k
    month := 12
    month_name := "December"
    day := 31
    valle_de_bravo :=
      ⟨round2 (pyMean (g.map (fun r => r.valle_bravo_mm3))),
       round2 (pyMean (g.map (fun r => r.valle_bravo_pct))),
       round2 ((g.map (fun r => r.valle_bravo_lluvia)).sum)⟩
    villa_victoria :=
      ⟨round2 (pyMean (g.map (fun r => r.villa_victoria_mm3))),
       round2 (pyMean (g.map (fun r => r.villa_victoria_pct))),
       round2 ((g.map (fun r => r.villa_victoria_lluvia)).sum)⟩
    el_bosque :=
      ⟨round2 (pyMean (g.map (fun r => r.el_bosque_mm3))),
       round2 (pyMean (g.map (fun r => r.el_bosque_pct))),
       round2 ((g.map (fun r => r.el_bosque_lluvia)).sum)⟩
    system_totals :=
      ⟨pyRound (pyMean (g.map (fun r => (pyInt r.total_mm3 : ℚ)))),
       round2 (pyMean (g.map (fun r => r.total_pct)))⟩
    source_pdf := latest.source_pdf }

/-- `aggregate_yearly`. -/
def aggregate_yearly (data : List DataRow) : List AggRecord :=
  if data = [] then []
  else sortIns yearDescLe ((yearlyGroups data).map (fun kg => yearRecord kg.1 kg.2))

end DatabaseAggregationService

/-! Section: Database rows as stored in `cutzamala_readings` (cleanup and repair scripts) -/

/-- A full row of the `cutzamala_readings` table. -/
structure DbRow where
  date : PyDate
  year : Int
  month : Int
  month_name : String
  day : Int
  valle_bravo_mm3 : ℚ
  valle_bravo_pct : ℚ
  valle_bravo_lluvia : ℚ
  villa_victoria_mm3 : ℚ
  villa_victoria_pct : ℚ
  villa_victoria_lluvia : ℚ
  el_bosque_mm3 : ℚ
  el_bosque_pct : ℚ
  el_bosque_lluvia : ℚ
  total_mm3 : ℚ
  total_pct : ℚ
  source_pdf : String
  is_synthetic : Bool
  updated_at : String
deriving DecidableEq, Inhabited

/-- Sum of the three reservoir storages of a row. -/
def reservoirSum (r : DbRow) : ℚ :=
  r.valle_bravo_mm3 + r.villa_victoria_mm3 + r.el_bosque_mm3

/-! Section: `database_cleanup.py` (`DatabaseCleaner`) -/

namespace DatabaseCleaner

/-- `valle_bravo_mm3 = 0 AND villa_victoria_mm3 = 0 AND el_bosque_mm3 = 0`. -/
def allZeroStorage (r : DbRow) : Bool :=
  decide (r.valle_bravo_mm3 = 0) && decide (r.villa_victoria_mm3 = 0) &&
    decide (r.el_bosque_mm3 = 0)

/-- `remove_zero_storage_records`: delete every row whose three storages are
all zero; returns the `DELETE` rowcount (0 without touching the table when no
such row exists) together with the resulting table state. -/
def remove_zero_storage_records (db : List DbRow) : Int × List DbRow :=
  let countToRemove := (db.filter allZeroStorage).length
  if countToRemove = 0 then (0, db)
  else (((db.filter allZeroStorage).length : Int), db.filter (fun r => ! allZeroStorage r))

/-- `valle_bravo_mm3 > 0 OR villa_victoria_mm3 > 0 OR el_bosque_mm3 > 0`. -/
def hasPositiveStorage (r : DbRow) : Bool :=
  decide (0 < r.valle_bravo_mm3) || decide (0 < r.villa_victoria_mm3) ||
    decide (0 < r.el_bosque_mm3)

/-- Rows eligible as the previous neighbor of `target`
(`date < target AND` some storage positive). -/
def prevCandidates (db : List DbRow) (target : PyDate) : List DbRow :=
  db.filter (fun r => decide (toDays r.date < toDays target) && hasPositiveStorage r)

/-- Rows eligible as the next neighbor of `target`. -/
def nextCandidates (db : List DbRow) (target : PyDate) : List DbRow :=
  db.filter (fun r => decide (toDays target < toDays r.date) && hasPositiveStorage r)

/-- `ORDER BY date DESC LIMIT 1`: the row with maximal date. -/
def sqlMaxByDate : List DbRow → Option DbRow :=
  List.foldl
    (fun acc r =>
      match acc with
      | none => some r
      | some m => if toDays m.date < toDays r.date then some r else some m)
    none

/-- `ORDER BY date ASC LIMIT 1`: the row with minimal date. -/
def sqlMinByDate : List DbRow → Option DbRow :=
  List.foldl
    (fun acc r =>
      match acc with
      | none => some r
      | some m => if toDays r.date < toDays m.date then some r else some m)
    none

/-- The linear interpolation weight: `days_from_prev / total_days`, fixed at
`0.5` when `total_days == 0`. -/
def interpWeight (prevD nextD targetD : Int) : ℚ :=
  if nextD - prevD = 0 then 1/2
  else ((targetD - prevD : Int) : ℚ) / ((nextD - prevD : Int) : ℚ)

/-- `interpolate(prev_val, next_val) = prev_val + (next_val - prev_val) * weight`. -/
def interp (weight prevVal nextVal : ℚ) : ℚ := prevVal + (nextVal - prevVal) * weight

/-- The dictionary returned by `interpolate_storage_values` on success. -/
structure InterpRecord where
  date : String
  year : Int
  month : Int
  month_name : String
  day : Int
  valle_bravo_mm3 : ℚ
  valle_bravo_pct : ℚ
  valle_bravo_lluvia : ℚ
  villa_victoria_mm3 : ℚ
  villa_victoria_pct : ℚ
  villa_victoria_lluvia : ℚ
  el_bosque_mm3 : ℚ
  el_bosque_pct : ℚ
  el_bosque_lluvia : ℚ
  source_pdf : String
  is_synthetic : Bool
  total_mm3 : ℚ
  total_pct : ℚ
deriving DecidableEq, Inhabited

/-- The dictionary built from neighbors `p` (previous) and `n` (next) for the
missing `target` date. -/
def interpRecordOf (p n : DbRow) (target : PyDate) : InterpRecord :=
  let weight := interpWeight (toDays p.date) (toDays n.date) (toDays target)
  let vbm := interp weight p.valle_bravo_mm3 n.valle_bravo_mm3
  let vvm := interp weight p.villa_victoria_mm3 n.villa_victoria_mm3
  let ebm := interp weight p.el_bosque_mm3 n.el_bosque_mm3
  { date := dateStr target
    year := target.year
    month := target.month
    month_name := pyUpper (strftimeB target.month)
    day := target.day
    valle_bravo_mm3 := vbm
    valle_bravo_pct := interp weight p.valle_bravo_pct n.valle_bravo_pct
    valle_bravo_lluvia := 0
    villa_victoria_mm3 := vvm
    villa_victoria_pct := interp weight p.villa_victoria_pct n.villa_victoria_pct
    villa_victoria_lluvia := 0
    el_bosque_mm3 := ebm
    el_bosque_pct := interp weight p.el_bosque_pct n.el_bosque_pct
    el_bosque_lluvia := 0
    source_pdf := "INTERPOLATED_BETWEEN_" ++ dateStr p.date ++ "_" ++ dateStr n.date
    is_synthetic := true
    total_mm3 := vbm + vvm + ebm
    total_pct := interp weight p.total_pct n.total_pct }

/-- `interpolate_storage_values`: find the closest surrounding positive-storage
rows, interpolate linearly, zero the rainfall, mark the row synthetic and
recompute the total as the sum of the interpolated storages. -/
def interpolate_storage_values (db : List DbRow) (target : PyDate) :
    Option InterpRecord :=
  match sqlMaxByDate (prevCandidates db target), sqlMinByDate (nextCandidates db target) with
  | some p, some n => some (interpRecordOf p n target)
  | _, _ => none

end DatabaseCleaner

/-! Section: `fix_total_mm3.py` -/

/-- The per-row effect of the `UPDATE` in `fix_total_mm3`: rows whose stored
total deviates from the reservoir sum by more than 0.1 get the recomputed
total and a fresh `updated_at`; other rows are untouched. -/
def fixRow (now : String) (r : DbRow) : DbRow :=
  if 1/10 < |reservoirSum r - r.total_mm3| then
    { r with total_mm3 := reservoirSum r, updated_at := now }
  else r

/-- `fix_total_mm3`: recompute `total_mm3` from the individual reservoirs on
every deviating row (`now` is `CURRENT_TIMESTAMP`). -/
def fix_total_mm3 (db : List DbRow) (now : String) : List DbRow :=
  db.map (fixRow now)

/-! Section: `src/api/services/database_service.py` (`DatabaseDataService`) -/

namespace DatabaseDataService

/-- A record returned by `get_filtered_data` (the 17 selected columns). -/
structure ServiceRecord where
  date : String
  year : Int
  month : Int
  month_name : String
  day : Int
  valle_bravo_mm3 : ℚ
  valle_bravo_pct : ℚ
  valle_bravo_lluvia : ℚ
  villa_victoria_mm3 : ℚ
  villa_victoria_pct : ℚ
  villa_victoria_lluvia : ℚ
  el_bosque_mm3 : ℚ
  el_bosque_pct : ℚ
  el_bosque_lluvia : ℚ
  total_mm3 : ℚ
  total_pct : ℚ
  source_pdf : String
deriving DecidableEq, Inhabited

/-- A `WHERE` condition of the built query. -/
inductive SqlCond
  | dateGe
  | dateLe
deriving DecidableEq

/-- One element of `query_parts` in `get_filtered_data`. -/
inductive QueryPart
  | baseSelect
  | whereClause (conds : List SqlCond)
  | orderBy (descending : Bool)
  | limitClause
  | offsetClause
deriving DecidableEq

/-- The `query_parts` list built by `get_filtered_data`, following the code's
control flow: optional date bounds, `ORDER BY date` whose direction is
descending exactly when `order.lower() == "desc"`, then `LIMIT`/`OFFSET`
guarded by Python truthiness of `limit` and `offset`. -/
def get_filtered_data_query (start_date end_date : Option PyDate) (order : String)
    (limit offset : Option Int) : List QueryPart :=
  let whereConds :=
    (if start_date.isSome then [SqlCond.dateGe] else []) ++
      (if end_date.isSome then [SqlCond.dateLe] else [])
  [QueryPart.baseSelect] ++
    (if whereConds.isEmpty then [] else [QueryPart.whereClause whereConds]) ++
    [QueryPart.orderBy (pyLower order = "desc")] ++
    (if pyTruthyInt limit then
      [QueryPart.limitClause] ++ (if pyTruthyInt offset then [QueryPart.offsetClause] else [])
    else [])

/-- The per-record effect of `_filter_by_reservoirs`: zero the three fields of
every reservoir that is not in the requested list. -/
def zeroNonRequested (reservoirs : List String) (record : ServiceRecord) : ServiceRecord :=
  let record :=
    if "Valle de Bravo" ∉ reservoirs then
      { record with valle_bravo_mm3 := 0, valle_bravo_pct := 0, valle_bravo_lluvia := 0 }
    else record
  let record :=
    if "Villa Victoria" ∉ reservoirs then
      { record with villa_victoria_mm3 := 0, villa_victoria_pct := 0,
                    villa_victoria_lluvia := 0 }
    else record
  let record :=
    if "El Bosque" ∉ reservoirs then
      { record with el_bosque_mm3 := 0, el_bosque_pct := 0, el_bosque_lluvia := 0 }
    else record
  record

/-- `_filter_by_reservoirs` applied to the whole result list. -/
def filter_by_reservoirs (data : List ServiceRecord) (reservoirs : List String) :
    List ServiceRecord :=
  data.map (zeroNonRequested reservoirs)

end DatabaseDataService

/-! Section: `src/api/models/request.py` (`CutzamalaQueryParams.validate_reservoirs`) -/

/-- The fixed reservoir vocabulary of the validator. -/
def valid_reservoirs : List String :=
  ["Villa Victoria", "Valle de Bravo", "El Bosque", "Ixtapan del Oro", "Colorines",
   "Chilesdo"]

/-- `validate_reservoirs`: on a truthy value, split on commas, strip each name
and raise on the first name outside the vocabulary; falsy values (`None` or
the empty string) are passed through unvalidated. -/
def validate_reservoirs (v : Option String) : Except String (Option String) :=
  match v with
  | none => Except.ok none
  | some s =>
    if s = "" then Except.ok (some s)
    else
      let reservoirs := (pySplitComma s).map pyStrip
      match reservoirs.find? (fun r => ! valid_reservoirs.contains r) with
      | some bad => Except.error ("Invalid reservoir name: " ++ bad)
      | none => Except.ok (some s)

/-! Section: `cutzamala/processors/pdf_processor.py` (`PDFProcessor.MONTHS_MAP`) -/

namespace PDFProcessor

/-- The Spanish month-name map used when extracting PDF rows; extracted rows
carry these upper-case Spanish names as their `month_name`. -/
def MONTHS_MAP : List (String × Int) :=
  [("ENERO", 1), ("FEBRERO", 2), ("MARZO", 3), ("ABRIL", 4), ("MAYO", 5), ("JUNIO", 6),
   ("JULIO", 7), ("AGOSTO", 8), ("SEPTIEMBRE", 9), ("OCTUBRE", 10), ("NOVIEMBRE", 11),
   ("DICIEMBRE", 12)]

end PDFProcessor


/-! Section: Concrete example data used by the closed checks -/

/-- A daily row (Wednesday 2024-01-03) with integral values. -/
def rowC1 : DataRow :=
  { date := ⟨2024, 1, 3⟩, year := 2024, month := 1, month_name := "ENERO", day := 3
    valle_bravo_mm3 := 100, valle_bravo_pct := 50, valle_bravo_lluvia := 0
    villa_victoria_mm3 := 100, villa_victoria_pct := 50, villa_victoria_lluvia := 0
    el_bosque_mm3 := 100, el_bosque_pct := 50, el_bosque_lluvia := 0
    total_mm3 := 300, total_pct := 50, source_pdf := "2024_01.pdf" }

/-- A daily row whose stored `total_mm3` is the non-integral value 100.7. -/
def rowCx : DataRow :=
  { date := ⟨2024, 1, 3⟩, year := 2024, month := 1, month_name := "ENERO", day := 3
    valle_bravo_mm3 := 100, valle_bravo_pct := 50, valle_bravo_lluvia := 0
    villa_victoria_mm3 := 100, villa_victoria_pct := 50, villa_victoria_lluvia := 0
    el_bosque_mm3 := 100, el_bosque_pct := 50, el_bosque_lluvia := 0
    total_mm3 := 1007/10, total_pct := 50, source_pdf := "2024_01.pdf" }

/-- A database row for 2024-01-01 with all storages 100. -/
def dbRowA : DbRow :=
  { date := ⟨2024, 1, 1⟩, year := 2024, month := 1, month_name := "ENERO", day := 1
    valle_bravo_mm3 := 100, valle_bravo_pct := 50, valle_bravo_lluvia := 0
    villa_victoria_mm3 := 100, villa_victoria_pct := 50, villa_victoria_lluvia := 0
    el_bosque_mm3 := 100, el_bosque_pct := 50, el_bosque_lluvia := 0
    total_mm3 := 300, total_pct := 50, source_pdf := "a.pdf"
    is_synthetic := false, updated_at := "t0" }

/-- A database row for 2024-01-03 with all storages 200. -/
def dbRowB : DbRow :=
  { date := ⟨2024, 1, 3⟩, year := 2024, month := 1, month_name := "ENERO", day := 3
    valle_bravo_mm3 := 200, valle_bravo_pct := 60, valle_bravo_lluvia := 0
    villa_victoria_mm3 := 200, villa_victoria_pct := 60, villa_victoria_lluvia := 0
    el_bosque_mm3 := 200, el_bosque_pct := 60, el_bosque_lluvia := 0
    total_mm3 := 600, total_pct := 60, source_pdf := "b.pdf"
    is_synthetic := false, updated_at := "t0" }

/-- A two-row table around the missing date 2024-01-02. -/
def exampleDb : List DbRow := [dbRowA, dbRowB]

/-- A row whose stored total (290) deviates from the reservoir sum (300). -/
def dbRowFix : DbRow :=
  { date := ⟨2018, 11, 8⟩, year := 2018, month := 11, month_name := "NOVIEMBRE", day := 8
    valle_bravo_mm3 := 100, valle_bravo_pct := 50, valle_bravo_lluvia := 0
    villa_victoria_mm3 := 100, villa_victoria_pct := 50, villa_victoria_lluvia := 0
    el_bosque_mm3 := 100, el_bosque_pct := 50, el_bosque_lluvia := 0
    total_mm3 := 290, total_pct := 50, source_pdf := "n.pdf"
    is_synthetic := false, updated_at := "t0" }

/-- A row with every storage equal to zero. -/
def dbRowZero : DbRow :=
  { date := ⟨2020, 5, 1⟩, year := 2020, month := 5, month_name := "MAYO", day := 1
    valle_bravo_mm3 := 0, valle_bravo_pct := 0, valle_bravo_lluvia := 0
    villa_victoria_mm3 := 0, villa_victoria_pct := 0, villa_victoria_lluvia := 0
    el_bosque_mm3 := 0, el_bosque_pct := 0, el_bosque_lluvia := 0
    total_mm3 := 0, total_pct := 0, source_pdf := "z.pdf"
    is_synthetic := false, updated_at := "t0" }

/-- A row with a positive storage. -/
def dbRowKeep : DbRow :=
  { date := ⟨2020, 5, 2⟩, year := 2020, month := 5, month_name := "MAYO", day := 2
    valle_bravo_mm3 := 100, valle_bravo_pct := 50, valle_bravo_lluvia := 0
    villa_victoria_mm3 := 0, villa_victoria_pct := 0, villa_victoria_lluvia := 0
    el_bosque_mm3 := 0, el_bosque_pct := 0, el_bosque_lluvia := 0
    total_mm3 := 100, total_pct := 20, source_pdf := "k.pdf"
    is_synthetic := false, updated_at := "t0" }

/-- A service-layer record with nonzero values for every reservoir. -/
def svcRec : DatabaseDataService.ServiceRecord :=
  { date := "2024-01-03", year := 2024, month := 1, month_name := "ENERO", day := 3
    valle_bravo_mm3 := 100, valle_bravo_pct := 50, valle_bravo_lluvia := 1
    villa_victoria_mm3 := 110, villa_victoria_pct := 55, villa_victoria_lluvia := 2
    el_bosque_mm3 := 120, el_bosque_pct := 60, el_bosque_lluvia := 3
    total_mm3 := 330, total_pct := 55, source_pdf := "s.pdf" }

/-! Section: Helper lemmas -/

theorem insertIns_perm {α : Type} (le : α → α → Bool) (x : α) (l : List α) :
    List.Perm (insertIns le x l) (x :: l) := by
  induction l with
  | nil => simp [insertIns]
  | cons y ys ih =>
    by_cases h : le x y = true
    · simp [insertIns, h]
    · simp only [insertIns, h, if_false]
      exact (ih.cons y).trans (List.Perm.swap x y ys)

theorem sortIns_perm {α : Type} (le : α → α → Bool) (l : List α) :
    List.Perm (sortIns le l) l := by
  induction l with
  | nil => simp [sortIns]
  | cons x xs ih =>
    exact (insertIns_perm le x (sortIns le xs)).trans (ih.cons x)

theorem mem_sortIns {α : Type} {le : α → α → Bool} {a : α} {l : List α} :
    a ∈ sortIns le l ↔ a ∈ l :=
  (sortIns_perm le l).mem_iff

theorem mem_insertKey {K : Type} [DecidableEq K] {ks : List K} {k k' : K} :
    k ∈ insertKey ks k' ↔ k ∈ ks ∨ k = k' := by
  by_cases h : k' ∈ ks
  · simp only [insertKey, if_pos h]
    constructor
    · exact fun hk => Or.inl hk
    · rintro (hk | rfl)
      · exact hk
      · exact h
  · simp [insertKey, if_neg h, List.mem_append]

theorem mem_keysInOrder_aux {α K : Type} [DecidableEq K] (key : α → K) (k : K) :
    ∀ (l : List α) (ks : List K),
      k ∈ l.foldl (fun ks a => insertKey ks (key a)) ks →
        k ∈ ks ∨ ∃ a ∈ l, key a = k := by
  intro l
  induction l with
  | nil => intro ks h; exact Or.inl h
  | cons a t ih =>
    intro ks h
    rcases ih (insertKey ks (key a)) h with h' | ⟨b, hb, hk⟩
    · rcases mem_insertKey.mp h' with h'' | rfl
      · exact Or.inl h''
      · exact Or.inr ⟨a, List.mem_cons_self a t, rfl⟩
    · exact Or.inr ⟨b, List.mem_cons_of_mem a hb, hk⟩

theorem mem_keysInOrder {α K : Type} [DecidableEq K] {key : α → K} {l : List α} {k : K}
    (h : k ∈ keysInOrder key l) : ∃ a ∈ l, key a = k := by
  rcases mem_keysInOrder_aux key k l [] h with h' | h'
  · simp at h'
  · exact h'

theorem mem_groupByKey {α K : Type} [DecidableEq K] {key : α → K} {l : List α}
    {k : K} {g : List α} (h : (k, g) ∈ groupByKey key l) :
    g = l.filter (fun a => decide (key a = k)) ∧ g ≠ [] := by
  rcases List.mem_map.mp h with ⟨k', hk', heq⟩
  have hkk : k' = k := congrArg Prod.fst heq
  subst hkk
  have hg : g = l.filter (fun a => decide (key a = k')) := (congrArg Prod.snd heq).symm
  refine ⟨hg, ?_⟩
  rcases mem_keysInOrder hk' with ⟨a, ha, hka⟩
  have : a ∈ l.filter (fun a => decide (key a = k')) :=
    List.mem_filter.mpr ⟨ha, by simp [hka]⟩
  rw [hg]
  exact List.ne_nil_of_mem this

theorem pyRound_eq_of_lt (q : ℚ) (n : Int) (hle : (n : ℚ) ≤ q) (hlt : q < (n : ℚ) + 1)
    (hfr : q - (n : ℚ) < 1/2) : pyRound q = n := by
  have hf : ⌊q⌋ = n := Int.floor_eq_iff.mpr ⟨hle, by exact_mod_cast hlt⟩
  unfold pyRound
  rw [hf, if_pos hfr]

theorem pyRound_eq_of_gt (q : ℚ) (n : Int) (hle : (n : ℚ) ≤ q) (hlt : q < (n : ℚ) + 1)
    (hfr : 1/2 < q - (n : ℚ)) : pyRound q = n + 1 := by
  have hf : ⌊q⌋ = n := Int.floor_eq_iff.mpr ⟨hle, by exact_mod_cast hlt⟩
  unfold pyRound
  rw [hf, if_neg (by linarith), if_pos hfr]

theorem pyInt_eq_floor (q : ℚ) (h : 0 ≤ q) : pyInt q = ⌊q⌋ := by
  unfold pyInt
  rw [if_neg (by linarith)]

/-- The Sunday-anchored window property of `week_start = t - (weekday(t)+1) % 7`:
the start is a Sunday, lies on or before `t`, the window of 7 days starting
there contains `t`, and no later Sunday is on or before `t`. -/
theorem weekStart_window (t : Int) :
    pyWeekday (t - (pyWeekday t + 1) % 7) = 6 ∧
    t - (pyWeekday t + 1) % 7 ≤ t ∧
    t ≤ t - (pyWeekday t + 1) % 7 + 6 ∧
    ∀ s : Int, pyWeekday s = 6 → s ≤ t → s ≤ t - (pyWeekday t + 1) % 7 := by
  unfold pyWeekday
  refine ⟨by omega, by omega, by omega, ?_⟩
  intro s hs hst
  omega

/-! Section: Claim theorems -/

/-- Claim C6: each of `aggregate_daily`, `aggregate_weekly`, `aggregate_monthly`
and `aggregate_yearly`, applied to an empty input list, returns an empty list
without error. -/
theorem aggregate_empty_input :
    DatabaseAggregationService.aggregate_daily [] = [] ∧
    DatabaseAggregationService.aggregate_weekly [] = [] ∧
    DatabaseAggregationService.aggregate_monthly [] = [] ∧
    DatabaseAggregationService.aggregate_yearly [] = [] :=
  ⟨rfl, rfl, rfl, rfl⟩

/-- Claim C5: for every single-row input list, `aggregate_daily` returns exactly
one output record whose per-reservoir `storage_mm3`, `percentage` and `rainfall`
equal the input row's values (the `float()` coercion is the identity on exact
values), and whose system `total_mm3` is the input's total coerced with `int()`. -/
theorem aggregate_daily_single_row (row : DataRow) :
    ∃ rec, DatabaseAggregationService.aggregate_daily [row] = [rec] ∧
      rec.valle_de_bravo.storage_mm3 = row.valle_bravo_mm3 ∧
      rec.valle_de_bravo.percentage = row.valle_bravo_pct ∧
      rec.valle_de_bravo.rainfall = row.valle_bravo_lluvia ∧
      rec.villa_victoria.storage_mm3 = row.villa_victoria_mm3 ∧
      rec.villa_victoria.percentage = row.villa_victoria_pct ∧
      rec.villa_victoria.rainfall = row.villa_victoria_lluvia ∧
      rec.el_bosque.storage_mm3 = row.el_bosque_mm3 ∧
      rec.el_bosque.percentage = row.el_bosque_pct ∧
      rec.el_bosque.rainfall = row.el_bosque_lluvia ∧
      rec.system_totals.total_mm3 = pyInt row.total_mm3 :=
  ⟨DatabaseAggregationService.dailyRecord row, rfl, rfl, rfl, rfl, rfl, rfl, rfl, rfl,
    rfl, rfl, rfl⟩

/-- Claim C3: after one run of `fix_total_mm3`, every row satisfies
`|valle_bravo_mm3 + villa_victoria_mm3 + el_bosque_mm3 - total_mm3| ≤ 0.1`;
the update sets `total_mm3` to the exact sum (and refreshes the timestamp) on
every row whose deviation exceeded 0.1 and leaves every other row unchanged. -/
theorem fix_total_mm3_spec (db : List DbRow) (now : String) :
    (∀ r ∈ fix_total_mm3 db now, |reservoirSum r - r.total_mm3| ≤ 1/10) ∧
    (∀ r ∈ db, 1/10 < |reservoirSum r - r.total_mm3| →
      { r with total_mm3 := reservoirSum r, updated_at := now } ∈ fix_total_mm3 db now) ∧
    (∀ r ∈ db, ¬ 1/10 < |reservoirSum r - r.total_mm3| → r ∈ fix_total_mm3 db now) := by
  refine ⟨?_, ?_, ?_⟩
  · intro r hr
    rcases List.mem_map.mp hr with ⟨r0, _, rfl⟩
    unfold fixRow
    by_cases h : 1/10 < |reservoirSum r0 - r0.total_mm3|
    · rw [if_pos h]
      show |reservoirSum r0 - reservoirSum r0| ≤ 1/10
      simp
    · rw [if_neg h]
      exact not_lt.mp h
  · intro r hr h
    exact List.mem_map.mpr ⟨r, hr, by unfold fixRow; rw [if_pos h]⟩
  · intro r hr h
    exact List.mem_map.mpr ⟨r, hr, by unfold fixRow; rw [if_neg h]⟩

/-- Witness for C3 at a concrete row whose total deviates by 10. -/
theorem fix_total_mm3_spec_witness :
    { dbRowFix with total_mm3 := reservoirSum dbRowFix, updated_at := "t1" } ∈
      fix_total_mm3 [dbRowFix] "t1" :=
  (fix_total_mm3_spec [dbRowFix] "t1").2.1 dbRowFix (List.Mem.head _)
    (by norm_num [reservoirSum, dbRowFix])

/-- Claim C7: `remove_zero_storage_records` is idempotent: a second invocation
returns 0 because the first deletes every row whose three reservoir storages are
all exactly zero. -/
theorem remove_zero_storage_records_idem (db : List DbRow) :
    (DatabaseCleaner.remove_zero_storage_records
        (DatabaseCleaner.remove_zero_storage_records db).2).1 = 0 ∧
    ∀ r ∈ (DatabaseCleaner.remove_zero_storage_records db).2,
      DatabaseCleaner.allZeroStorage r = false := by
  have hall : ∀ r ∈ (DatabaseCleaner.remove_zero_storage_records db).2,
      DatabaseCleaner.allZeroStorage r = false := by
    intro r hr
    simp only [DatabaseCleaner.remove_zero_storage_records] at hr
    split at hr
    case isTrue h =>
      have hnil : db.filter DatabaseCleaner.allZeroStorage = [] := List.length_eq_zero.mp h
      have := List.filter_eq_nil_iff.mp hnil r hr
      simpa using this
    case isFalse h =>
      have := (List.mem_filter.mp hr).2
      simpa using this
  refine ⟨?_, hall⟩
  have hnil : (DatabaseCleaner.remove_zero_storage_records db).2.filter
      DatabaseCleaner.allZeroStorage = [] :=
    List.filter_eq_nil_iff.mpr (fun r hr => by simp [hall r hr])
  conv_lhs =>
    rw [DatabaseCleaner.remove_zero_storage_records]
  rw [hnil]
  simp

/-- Witness for C7 at a concrete two-row table. -/
theorem remove_zero_storage_records_idem_witness :
    DatabaseCleaner.allZeroStorage dbRowKeep = false :=
  (remove_zero_storage_records_idem [dbRowZero, dbRowKeep]).2 dbRowKeep (List.Mem.head _)

/-- Claim C10: every record produced by `interpolate_storage_values` carries the
upper-cased English month name of the target date (`strftime('%B').upper()`),
which differs from the upper-case Spanish month name that PDF-extracted rows
carry for the same month. -/
theorem interpolate_month_name_spec (db : List DbRow) (target : PyDate)
    (rec : DatabaseCleaner.InterpRecord)
    (h : DatabaseCleaner.interpolate_storage_values db target = some rec) :
    rec.month_name = pyUpper (strftimeB target.month) ∧
    ∀ pr ∈ PDFProcessor.MONTHS_MAP, pyUpper (strftimeB pr.2) ≠ pr.1 := by
  constructor
  · unfold DatabaseCleaner.interpolate_storage_values at h
    split at h
    · have heq := Option.some.inj h
      rw [← heq]
      rfl
    · exact Option.noConfusion h
  · decide

/-- Witness for C10 at the concrete two-row table around 2024-01-02. -/
theorem interpolate_month_name_spec_witness :
    (DatabaseCleaner.interpRecordOf dbRowA dbRowB ⟨2024, 1, 2⟩).month_name =
      pyUpper (strftimeB (⟨2024, 1, 2⟩ : PyDate).month) ∧
    ∀ pr ∈ PDFProcessor.MONTHS_MAP, pyUpper (strftimeB pr.2) ≠ pr.1 :=
  interpolate_month_name_spec exampleDb ⟨2024, 1, 2⟩
    (DatabaseCleaner.interpRecordOf dbRowA dbRowB ⟨2024, 1, 2⟩) rfl

/-- Claim C4 as stated is false: the code lower-cases `order` before comparing,
so the order string `"DESC"` (which is not `"desc"`) still produces a
descending `ORDER BY`. -/
theorem get_filtered_data_query_order_cex :
    DatabaseDataService.QueryPart.orderBy true ∈
      DatabaseDataService.get_filtered_data_query none none "DESC" none (some 0) ∧
    "DESC" ≠ "desc" := by
  constructor
  · show DatabaseDataService.QueryPart.orderBy true ∈
      DatabaseDataService.get_filtered_data_query none none "DESC" none (some 0)
    decide
  · decide

/-- Claim C4 (amended): the built query has a `date >=` / `date <=` predicate
exactly when the corresponding bound is given, orders descending exactly when
the lower-cased order string equals `"desc"` (ascending otherwise), has a
`LIMIT` exactly when `limit` is truthy, and an `OFFSET` exactly when both
`limit` and `offset` are truthy; a zero offset never produces a clause. -/
theorem get_filtered_data_query_spec (start_date end_date : Option PyDate)
    (order : String) (limit offset : Option Int)
    (q : List DatabaseDataService.QueryPart)
    (hq : q = DatabaseDataService.get_filtered_data_query start_date end_date order
      limit offset) :
    ((∃ cs, DatabaseDataService.QueryPart.whereClause cs ∈ q ∧
        DatabaseDataService.SqlCond.dateGe ∈ cs) ↔ start_date.isSome = true) ∧
    ((∃ cs, DatabaseDataService.QueryPart.whereClause cs ∈ q ∧
        DatabaseDataService.SqlCond.dateLe ∈ cs) ↔ end_date.isSome = true) ∧
    (DatabaseDataService.QueryPart.orderBy true ∈ q ↔ pyLower order = "desc") ∧
    (DatabaseDataService.QueryPart.orderBy false ∈ q ↔ ¬ pyLower order = "desc") ∧
    (DatabaseDataService.QueryPart.limitClause ∈ q ↔ pyTruthyInt limit = true) ∧
    (DatabaseDataService.QueryPart.offsetClause ∈ q ↔
      (pyTruthyInt limit = true ∧ pyTruthyInt offset = true)) ∧
    (offset = some 0 → DatabaseDataService.QueryPart.offsetClause ∉ q) := by
  subst hq
  have hoz : offset = some 0 → pyTruthyInt offset = false := by
    rintro rfl
    simp [pyTruthyInt]
  rcases start_date with _ | sd <;> rcases end_date with _ | ed <;>
    rcases hl : pyTruthyInt limit <;> rcases ho : pyTruthyInt offset <;>
      by_cases hd : pyLower order = "desc" <;>
        simp_all [DatabaseDataService.get_filtered_data_query]

/-- Witness for C4 (amended) at concrete arguments with a zero offset. -/
theorem get_filtered_data_query_spec_witness :
    DatabaseDataService.QueryPart.offsetClause ∉
      DatabaseDataService.get_filtered_data_query none none "desc" (some 5) (some 0) :=
  (get_filtered_data_query_spec none none "desc" (some 5) (some 0)
    (DatabaseDataService.get_filtered_data_query none none "desc" (some 5) (some 0))
    rfl).2.2.2.2.2.2 rfl

/-- Claim C8 as stated is false for the empty string: `if v:` treats `""` as
falsy, so validation is skipped and the value is accepted even though its
single split-and-stripped name `""` is not in the vocabulary. -/
theorem validate_reservoirs_empty_cex :
    validate_reservoirs (some "") = Except.ok (some "") ∧
    ¬ ∀ r ∈ (pySplitComma "").map pyStrip, r ∈ valid_reservoirs := by
  refine ⟨rfl, fun h => ?_⟩
  exact absurd (h "" (by decide)) (by decide)

/-- Claim C8 (amended): for every non-empty value, the validator accepts if and
only if every comma-separated, whitespace-stripped name is in the six-element
vocabulary, and raises a validation error otherwise; each of the six names is
accepted and `"NotARealReservoir"` is rejected.  (The empty or absent value is
passed through without validation.) -/
theorem validate_reservoirs_spec (s : String) (hne : s ≠ "") :
    (validate_reservoirs (some s) = Except.ok (some s) ↔
      ∀ r ∈ (pySplitComma s).map pyStrip, r ∈ valid_reservoirs) ∧
    ((¬ ∀ r ∈ (pySplitComma s).map pyStrip, r ∈ valid_reservoirs) →
      ∃ msg, validate_reservoirs (some s) = Except.error msg) ∧
    (∀ name ∈ valid_reservoirs, validate_reservoirs (some name) = Except.ok (some name)) ∧
    (∃ msg, validate_reservoirs (some "NotARealReservoir") = Except.error msg) := by
  have hnames : ∀ name ∈ valid_reservoirs,
      validate_reservoirs (some name) = Except.ok (some name) := by
    intro name hmem
    simp only [valid_reservoirs, List.mem_cons, List.not_mem_nil, or_false] at hmem
    rcases hmem with rfl | rfl | rfl | rfl | rfl | rfl <;> rfl
  rcases hfind : ((pySplitComma s).map pyStrip).find?
      (fun r => ! valid_reservoirs.contains r) with _ | bad
  · have hall : ∀ r ∈ (pySplitComma s).map pyStrip, r ∈ valid_reservoirs := by
      intro r hr
      have h := List.find?_eq_none.mp hfind r hr
      simpa using h
    have hok : validate_reservoirs (some s) = Except.ok (some s) := by
      simp only [validate_reservoirs, if_neg hne, hfind]
    exact ⟨⟨fun _ => hall, fun _ => hok⟩, fun hcontra => absurd hall hcontra, hnames,
      ⟨_, rfl⟩⟩
  · have hbadmem : bad ∈ (pySplitComma s).map pyStrip := List.mem_of_find?_eq_some hfind
    have hbadp := List.find?_some hfind
    have hbad : bad ∉ valid_reservoirs := by simpa using hbadp
    have herr : validate_reservoirs (some s) =
        Except.error ("Invalid reservoir name: " ++ bad) := by
      simp only [validate_reservoirs, if_neg hne, hfind]
    refine ⟨⟨fun h => ?_, fun hall => absurd (hall bad hbadmem) hbad⟩,
      fun _ => ⟨_, herr⟩, hnames, ⟨_, rfl⟩⟩
    rw [herr] at h
    exact Except.noConfusion h

/-- Witness for C8 (amended) at the non-empty value `"Colorines"`. -/
theorem validate_reservoirs_spec_witness :
    (validate_reservoirs (some "Colorines") = Except.ok (some "Colorines") ↔
      ∀ r ∈ (pySplitComma "Colorines").map pyStrip, r ∈ valid_reservoirs) ∧
    ((¬ ∀ r ∈ (pySplitComma "Colorines").map pyStrip, r ∈ valid_reservoirs) →
      ∃ msg, validate_reservoirs (some "Colorines") = Except.error msg) ∧
    (∀ name ∈ valid_reservoirs, validate_reservoirs (some name) = Except.ok (some name)) ∧
    (∃ msg, validate_reservoirs (some "NotARealReservoir") = Except.error msg) :=
  validate_reservoirs_spec "Colorines" (by decide)

namespace DatabaseDataService

/-- Claim C9: `_filter_by_reservoirs` only zeroes the `storage`, `percentage`
and `rainfall` fields of the reservoirs not in the requested subset; the date
fields, `source_pdf`, the fields of every requested reservoir and in
particular the system totals `total_mm3` / `total_pct` are left unchanged. -/
theorem filter_by_reservoirs_frame (reservoirs : List String) (hne : reservoirs ≠ [])
    (data : List ServiceRecord) (record : ServiceRecord) (out : ServiceRecord)
    (hout : out = zeroNonRequested reservoirs record) :
    (record ∈ data → out ∈ filter_by_reservoirs data reservoirs) ∧
    (filter_by_reservoirs data reservoirs).length = data.length ∧
    out.date = record.date ∧ out.year = record.year ∧ out.month = record.month ∧
    out.month_name = record.month_name ∧ out.day = record.day ∧
    out.source_pdf = record.source_pdf ∧
    out.total_mm3 = record.total_mm3 ∧ out.total_pct = record.total_pct ∧
    ("Valle de Bravo" ∈ reservoirs →
      out.valle_bravo_mm3 = record.valle_bravo_mm3 ∧
      out.valle_bravo_pct = record.valle_bravo_pct ∧
      out.valle_bravo_lluvia = record.valle_bravo_lluvia) ∧
    ("Valle de Bravo" ∉ reservoirs →
      out.valle_bravo_mm3 = 0 ∧ out.valle_bravo_pct = 0 ∧ out.valle_bravo_lluvia = 0) ∧
    ("Villa Victoria" ∈ reservoirs →
      out.villa_victoria_mm3 = record.villa_victoria_mm3 ∧
      out.villa_victoria_pct = record.villa_victoria_pct ∧
      out.villa_victoria_lluvia = record.villa_victoria_lluvia) ∧
    ("Villa Victoria" ∉ reservoirs →
      out.villa_victoria_mm3 = 0 ∧ out.villa_victoria_pct = 0 ∧
      out.villa_victoria_lluvia = 0) ∧
    ("El Bosque" ∈ reservoirs →
      out.el_bosque_mm3 = record.el_bosque_mm3 ∧
      out.el_bosque_pct = record.el_bosque_pct ∧
      out.el_bosque_lluvia = record.el_bosque_lluvia) ∧
    ("El Bosque" ∉ reservoirs →
      out.el_bosque_mm3 = 0 ∧ out.el_bosque_pct = 0 ∧ out.el_bosque_lluvia = 0) := by
  subst hout
  refine ⟨fun hmem => List.mem_map.mpr ⟨record, hmem, rfl⟩, by simp [filter_by_reservoirs],
    ?_⟩
  unfold zeroNonRequested
  by_cases h1 : "Valle de Bravo" ∈ reservoirs <;>
    by_cases h2 : "Villa Victoria" ∈ reservoirs <;>
      by_cases h3 : "El Bosque" ∈ reservoirs <;>
        simp [h1, h2, h3]

end DatabaseDataService

/-- Witness for C9: request only Valle de Bravo on a concrete record. -/
theorem filter_by_reservoirs_frame_witness :
    (svcRec ∈ [svcRec] →
      DatabaseDataService.zeroNonRequested ["Valle de Bravo"] svcRec ∈
        DatabaseDataService.filter_by_reservoirs [svcRec] ["Valle de Bravo"]) ∧
    (DatabaseDataService.filter_by_reservoirs [svcRec] ["Valle de Bravo"]).length =
      ([svcRec] : List DatabaseDataService.ServiceRecord).length ∧
    (DatabaseDataService.zeroNonRequested ["Valle de Bravo"] svcRec).date = svcRec.date ∧
    (DatabaseDataService.zeroNonRequested ["Valle de Bravo"] svcRec).year = svcRec.year ∧
    (DatabaseDataService.zeroNonRequested ["Valle de Bravo"] svcRec).month = svcRec.month ∧
    (DatabaseDataService.zeroNonRequested ["Valle de Bravo"] svcRec).month_name =
      svcRec.month_name ∧
    (DatabaseDataService.zeroNonRequested ["Valle de Bravo"] svcRec).day = svcRec.day ∧
    (DatabaseDataService.zeroNonRequested ["Valle de Bravo"] svcRec).source_pdf =
      svcRec.source_pdf ∧
    (DatabaseDataService.zeroNonRequested ["Valle de Bravo"] svcRec).total_mm3 =
      svcRec.total_mm3 ∧
    (DatabaseDataService.zeroNonRequested ["Valle de Bravo"] svcRec).total_pct =
      svcRec.total_pct ∧
    ("Valle de Bravo" ∈ ["Valle de Bravo"] →
      (DatabaseDataService.zeroNonRequested ["Valle de Bravo"] svcRec).valle_bravo_mm3 =
        svcRec.valle_bravo_mm3 ∧
      (DatabaseDataService.zeroNonRequested ["Valle de Bravo"] svcRec).valle_bravo_pct =
        svcRec.valle_bravo_pct ∧
      (DatabaseDataService.zeroNonRequested ["Valle de Bravo"] svcRec).valle_bravo_lluvia =
        svcRec.valle_bravo_lluvia) ∧
    ("Valle de Bravo" ∉ ["Valle de Bravo"] →
      (DatabaseDataService.zeroNonRequested ["Valle de Bravo"] svcRec).valle_bravo_mm3 = 0 ∧
      (DatabaseDataService.zeroNonRequested ["Valle de Bravo"] svcRec).valle_bravo_pct = 0 ∧
      (DatabaseDataService.zeroNonRequested ["Valle de Bravo"] svcRec).valle_bravo_lluvia
        = 0) ∧
    ("Villa Victoria" ∈ ["Valle de Bravo"] →
      (DatabaseDataService.zeroNonRequested ["Valle de Bravo"] svcRec).villa_victoria_mm3 =
        svcRec.villa_victoria_mm3 ∧
      (DatabaseDataService.zeroNonRequested ["Valle de Bravo"] svcRec).villa_victoria_pct =
        svcRec.villa_victoria_pct ∧
      (DatabaseDataService.zeroNonRequested
        ["Valle de Bravo"] svcRec).villa_victoria_lluvia = svcRec.villa_victoria_lluvia) ∧
    ("Villa Victoria" ∉ ["Valle de Bravo"] →
      (DatabaseDataService.zeroNonRequested ["Valle de Bravo"] svcRec).villa_victoria_mm3
        = 0 ∧
      (DatabaseDataService.zeroNonRequested ["Valle de Bravo"] svcRec).villa_victoria_pct
        = 0 ∧
      (DatabaseDataService.zeroNonRequested
        ["Valle de Bravo"] svcRec).villa_victoria_lluvia = 0) ∧
    ("El Bosque" ∈ ["Valle de Bravo"] →
      (DatabaseDataService.zeroNonRequested ["Valle de Bravo"] svcRec).el_bosque_mm3 =
        svcRec.el_bosque_mm3 ∧
      (DatabaseDataService.zeroNonRequested ["Valle de Bravo"] svcRec).el_bosque_pct =
        svcRec.el_bosque_pct ∧
      (DatabaseDataService.zeroNonRequested ["Valle de Bravo"] svcRec).el_bosque_lluvia =
        svcRec.el_bosque_lluvia) ∧
    ("El Bosque" ∉ ["Valle de Bravo"] →
      (DatabaseDataService.zeroNonRequested ["Valle de Bravo"] svcRec).el_bosque_mm3 = 0 ∧
      (DatabaseDataService.zeroNonRequested ["Valle de Bravo"] svcRec).el_bosque_pct = 0 ∧
      (DatabaseDataService.zeroNonRequested ["Valle de Bravo"] svcRec).el_bosque_lluvia
        = 0) :=
  DatabaseDataService.filter_by_reservoirs_frame ["Valle de Bravo"]
    (List.cons_ne_nil _ _) [svcRec] svcRec
    (DatabaseDataService.zeroNonRequested ["Valle de Bravo"] svcRec) rfl

namespace DatabaseCleaner

/-- Claim C2: `interpolate_storage_values` yields no record when either
positive-storage neighbor is missing; with both neighbors it interpolates every
storage / percentage field and the system percentage linearly with weight
`(target - prev) / (next - prev)` (0.5 if the neighbor dates coincide), zeroes
all rainfall, marks the row synthetic, stamps
`INTERPOLATED_BETWEEN_<prev>_<next>` and recomputes the total as the sum of the
three interpolated storages; halfway between totals 100 and 200 it yields 150. -/
theorem interpolate_storage_values_spec (db : List DbRow) (target : PyDate) :
    ((prevCandidates db target = [] ∨ nextCandidates db target = []) →
      interpolate_storage_values db target = none) ∧
    (∀ p n w,
      sqlMaxByDate (prevCandidates db target) = some p →
      sqlMinByDate (nextCandidates db target) = some n →
      w = interpWeight (toDays p.date) (toDays n.date) (toDays target) →
      (toDays n.date = toDays p.date → w = 1/2) ∧
      (toDays n.date ≠ toDays p.date →
        w = ((toDays target - toDays p.date : Int) : ℚ) /
          ((toDays n.date - toDays p.date : Int) : ℚ)) ∧
      ∃ rec, interpolate_storage_values db target = some rec ∧
        rec.valle_bravo_mm3 = interp w p.valle_bravo_mm3 n.valle_bravo_mm3 ∧
        rec.valle_bravo_pct = interp w p.valle_bravo_pct n.valle_bravo_pct ∧
        rec.villa_victoria_mm3 = interp w p.villa_victoria_mm3 n.villa_victoria_mm3 ∧
        rec.villa_victoria_pct = interp w p.villa_victoria_pct n.villa_victoria_pct ∧
        rec.el_bosque_mm3 = interp w p.el_bosque_mm3 n.el_bosque_mm3 ∧
        rec.el_bosque_pct = interp w p.el_bosque_pct n.el_bosque_pct ∧
        rec.total_pct = interp w p.total_pct n.total_pct ∧
        rec.valle_bravo_lluvia = 0 ∧ rec.villa_victoria_lluvia = 0 ∧
        rec.el_bosque_lluvia = 0 ∧
        rec.is_synthetic = true ∧
        rec.source_pdf = "INTERPOLATED_BETWEEN_" ++ dateStr p.date ++ "_" ++
          dateStr n.date ∧
        rec.total_mm3 = rec.valle_bravo_mm3 + rec.villa_victoria_mm3 +
          rec.el_bosque_mm3) ∧
    (interpolate_storage_values exampleDb ⟨2024, 1, 2⟩).map
      (fun rec => rec.valle_bravo_mm3) = some 150 := by
  refine ⟨?_, ?_, ?_⟩
  · rintro (h | h)
    · unfold interpolate_storage_values
      rw [h]
      rfl
    · unfold interpolate_storage_values
      rw [h]
      rcases sqlMaxByDate (prevCandidates db target) with _ | p <;> rfl
  · intro p n w hp hn hw
    subst hw
    refine ⟨fun h => by simp [interpWeight, h], fun h => ?_, ?_⟩
    · rw [interpWeight, if_neg (by omega)]
    · refine ⟨interpRecordOf p n target, ?_, rfl, rfl, rfl, rfl, rfl, rfl, rfl, rfl,
        rfl, rfl, rfl, rfl, rfl⟩
      unfold interpolate_storage_values
      rw [hp, hn]
  · have hp : sqlMaxByDate (prevCandidates exampleDb ⟨2024, 1, 2⟩) = some dbRowA := rfl
    have hn : sqlMinByDate (nextCandidates exampleDb ⟨2024, 1, 2⟩) = some dbRowB := rfl
    have hrec : interpolate_storage_values exampleDb ⟨2024, 1, 2⟩ =
        some (interpRecordOf dbRowA dbRowB ⟨2024, 1, 2⟩) := by
      unfold interpolate_storage_values
      rw [hp, hn]
    rw [hrec]
    have e1 : toDays dbRowA.date = 19723 := by decide
    have e2 : toDays dbRowB.date = 19725 := by decide
    have e3 : toDays (⟨2024, 1, 2⟩ : PyDate) = 19724 := by decide
    have hw : interpWeight (toDays dbRowA.date) (toDays dbRowB.date)
        (toDays (⟨2024, 1, 2⟩ : PyDate)) = 1/2 := by
      rw [e1, e2, e3, interpWeight]
      norm_num
    have hvb : (interpRecordOf dbRowA dbRowB ⟨2024, 1, 2⟩).valle_bravo_mm3 =
        interp (interpWeight (toDays dbRowA.date) (toDays dbRowB.date)
          (toDays (⟨2024, 1, 2⟩ : PyDate))) dbRowA.valle_bravo_mm3
          dbRowB.valle_bravo_mm3 := rfl
    rw [Option.map_some', hvb, hw]
    show some (interp (1/2) (100 : ℚ) 200) = some 150
    rw [interp]
    norm_num

end DatabaseCleaner

/-- Witness for C2 at the concrete two-row table around 2024-01-02. -/
theorem interpolate_storage_values_spec_witness :
    (toDays dbRowB.date = toDays dbRowA.date →
      DatabaseCleaner.interpWeight (toDays dbRowA.date) (toDays dbRowB.date)
        (toDays (⟨2024, 1, 2⟩ : PyDate)) = 1/2) ∧
    (toDays dbRowB.date ≠ toDays dbRowA.date →
      DatabaseCleaner.interpWeight (toDays dbRowA.date) (toDays dbRowB.date)
          (toDays (⟨2024, 1, 2⟩ : PyDate)) =
        ((toDays (⟨2024, 1, 2⟩ : PyDate) - toDays dbRowA.date : Int) : ℚ) /
          ((toDays dbRowB.date - toDays dbRowA.date : Int) : ℚ)) ∧
    ∃ rec, DatabaseCleaner.interpolate_storage_values exampleDb ⟨2024, 1, 2⟩ =
        some rec ∧
      rec.valle_bravo_mm3 =
        DatabaseCleaner.interp (DatabaseCleaner.interpWeight (toDays dbRowA.date)
          (toDays dbRowB.date) (toDays (⟨2024, 1, 2⟩ : PyDate)))
          dbRowA.valle_bravo_mm3 dbRowB.valle_bravo_mm3 ∧
      rec.valle_bravo_pct =
        DatabaseCleaner.interp (DatabaseCleaner.interpWeight (toDays dbRowA.date)
          (toDays dbRowB.date) (toDays (⟨2024, 1, 2⟩ : PyDate)))
          dbRowA.valle_bravo_pct dbRowB.valle_bravo_pct ∧
      rec.villa_victoria_mm3 =
        DatabaseCleaner.interp (DatabaseCleaner.interpWeight (toDays dbRowA.date)
          (toDays dbRowB.date) (toDays (⟨2024, 1, 2⟩ : PyDate)))
          dbRowA.villa_victoria_mm3 dbRowB.villa_victoria_mm3 ∧
      rec.villa_victoria_pct =
        DatabaseCleaner.interp (DatabaseCleaner.interpWeight (toDays dbRowA.date)
          (toDays dbRowB.date) (toDays (⟨2024, 1, 2⟩ : PyDate)))
          dbRowA.villa_victoria_pct dbRowB.villa_victoria_pct ∧
      rec.el_bosque_mm3 =
        DatabaseCleaner.interp (DatabaseCleaner.interpWeight (toDays dbRowA.date)
          (toDays dbRowB.date) (toDays (⟨2024, 1, 2⟩ : PyDate)))
          dbRowA.el_bosque_mm3 dbRowB.el_bosque_mm3 ∧
      rec.el_bosque_pct =
        DatabaseCleaner.interp (DatabaseCleaner.interpWeight (toDays dbRowA.date)
          (toDays dbRowB.date) (toDays (⟨2024, 1, 2⟩ : PyDate)))
          dbRowA.el_bosque_pct dbRowB.el_bosque_pct ∧
      rec.total_pct =
        DatabaseCleaner.interp (DatabaseCleaner.interpWeight (toDays dbRowA.date)
          (toDays dbRowB.date) (toDays (⟨2024, 1, 2⟩ : PyDate)))
          dbRowA.total_pct dbRowB.total_pct ∧
      rec.valle_bravo_lluvia = 0 ∧ rec.villa_victoria_lluvia = 0 ∧
      rec.el_bosque_lluvia = 0 ∧
      rec.is_synthetic = true ∧
      rec.source_pdf = "INTERPOLATED_BETWEEN_" ++ dateStr dbRowA.date ++ "_" ++
        dateStr dbRowB.date ∧
      rec.total_mm3 = rec.valle_bravo_mm3 + rec.villa_victoria_mm3 +
        rec.el_bosque_mm3 :=
  (DatabaseCleaner.interpolate_storage_values_spec exampleDb ⟨2024, 1, 2⟩).2.1
    dbRowA dbRowB
    (DatabaseCleaner.interpWeight (toDays dbRowA.date) (toDays dbRowB.date)
      (toDays (⟨2024, 1, 2⟩ : PyDate))) rfl rfl rfl

namespace DatabaseAggregationService

/-- Claim C1 (amended): weekly aggregation groups rows by the Sunday-anchored
7-day window containing each row's date (the window start is the most recent
Sunday on or before the date and the end is start + 6); per reservoir, the
output `storage_mm3` and `percentage` are the mean of the group's values and
`rainfall` its sum, each rounded to 2 decimals; the system `total_mm3` is the
mean of the group's `int()`-truncated totals rounded to the nearest integer
(not the mean of the raw totals, which is what the original claim said); the
system `total_percentage` is the mean of `total_pct` rounded to 2 decimals;
and the computed window of 2024-01-03 is 2023-12-31 … 2024-01-06. -/
theorem aggregate_weekly_spec (data : List DataRow) (hne : data ≠ []) :
    (∀ rec ∈ aggregate_weekly data,
      ∃ k g, (k, g) ∈ weeklyGroups data ∧ g ≠ [] ∧
        g = data.filter (fun r => decide (weekKeyOf r = k)) ∧
        (∀ r ∈ g, weekKeyOf r = k ∧ pyWeekday k = 6 ∧ k ≤ toDays r.date ∧
          toDays r.date ≤ k + 6 ∧
          ∀ s : Int, pyWeekday s = 6 → s ≤ toDays r.date → s ≤ k) ∧
        rec.valle_de_bravo.storage_mm3 =
          round2 (pyMean (g.map (fun r => r.valle_bravo_mm3))) ∧
        rec.valle_de_bravo.percentage =
          round2 (pyMean (g.map (fun r => r.valle_bravo_pct))) ∧
        rec.valle_de_bravo.rainfall =
          round2 ((g.map (fun r => r.valle_bravo_lluvia)).sum) ∧
        rec.villa_victoria.storage_mm3 =
          round2 (pyMean (g.map (fun r => r.villa_victoria_mm3))) ∧
        rec.villa_victoria.percentage =
          round2 (pyMean (g.map (fun r => r.villa_victoria_pct))) ∧
        rec.villa_victoria.rainfall =
          round2 ((g.map (fun r => r.villa_victoria_lluvia)).sum) ∧
        rec.el_bosque.storage_mm3 =
          round2 (pyMean (g.map (fun r => r.el_bosque_mm3))) ∧
        rec.el_bosque.percentage =
          round2 (pyMean (g.map (fun r => r.el_bosque_pct))) ∧
        rec.el_bosque.rainfall =
          round2 ((g.map (fun r => r.el_bosque_lluvia)).sum) ∧
        rec.system_totals.total_mm3 =
          pyRound (pyMean (g.map (fun r => (pyInt r.total_mm3 : ℚ)))) ∧
        rec.system_totals.total_percentage =
          round2 (pyMean (g.map (fun r => r.total_pct)))) ∧
    get_week_start_end ⟨2024, 1, 3⟩ = (⟨2023, 12, 31⟩, ⟨2024, 1, 6⟩) := by
  constructor
  · intro rec hrec
    unfold aggregate_weekly at hrec
    rw [if_neg hne, mem_sortIns] at hrec
    rcases List.mem_map.mp hrec with ⟨kg, hkg, rfl⟩
    obtain ⟨hgf, hgne⟩ := mem_groupByKey hkg
    refine ⟨kg.1, kg.2, hkg, hgne, hgf, ?_, rfl, rfl, rfl, rfl, rfl, rfl, rfl, rfl,
      rfl, rfl, rfl⟩
    intro r hr
    have hk : weekKeyOf r = kg.1 := by
      rw [hgf] at hr
      simpa using (List.mem_filter.mp hr).2
    have hw := weekStart_window (toDays r.date)
    rw [← hk]
    unfold weekKeyOf
    exact ⟨rfl, hw.1, hw.2.1, hw.2.2.1, hw.2.2.2⟩
  · decide

end DatabaseAggregationService

/-- Witness for C1 (amended) at a one-row input dated 2024-01-03; the single
group is keyed by the Sunday 2023-12-31. -/
theorem aggregate_weekly_spec_witness :
    ∃ k g, (k, g) ∈ DatabaseAggregationService.weeklyGroups [rowC1] ∧ g ≠ [] ∧
      g = [rowC1].filter (fun r => decide (DatabaseAggregationService.weekKeyOf r = k)) ∧
      (∀ r ∈ g, DatabaseAggregationService.weekKeyOf r = k ∧ pyWeekday k = 6 ∧
        k ≤ toDays r.date ∧ toDays r.date ≤ k + 6 ∧
        ∀ s : Int, pyWeekday s = 6 → s ≤ toDays r.date → s ≤ k) ∧
      (DatabaseAggregationService.weekRecord (toDays ⟨2023, 12, 31⟩)
          [rowC1]).valle_de_bravo.storage_mm3 =
        round2 (pyMean (g.map (fun r => r.valle_bravo_mm3))) ∧
      (DatabaseAggregationService.weekRecord (toDays ⟨2023, 12, 31⟩)
          [rowC1]).valle_de_bravo.percentage =
        round2 (pyMean (g.map (fun r => r.valle_bravo_pct))) ∧
      (DatabaseAggregationService.weekRecord (toDays ⟨2023, 12, 31⟩)
          [rowC1]).valle_de_bravo.rainfall =
        round2 ((g.map (fun r => r.valle_bravo_lluvia)).sum) ∧
      (DatabaseAggregationService.weekRecord (toDays ⟨2023, 12, 31⟩)
          [rowC1]).villa_victoria.storage_mm3 =
        round2 (pyMean (g.map (fun r => r.villa_victoria_mm3))) ∧
      (DatabaseAggregationService.weekRecord (toDays ⟨2023, 12, 31⟩)
          [rowC1]).villa_victoria.percentage =
        round2 (pyMean (g.map (fun r => r.villa_victoria_pct))) ∧
      (DatabaseAggregationService.weekRecord (toDays ⟨2023, 12, 31⟩)
          [rowC1]).villa_victoria.rainfall =
        round2 ((g.map (fun r => r.villa_victoria_lluvia)).sum) ∧
      (DatabaseAggregationService.weekRecord (toDays ⟨2023, 12, 31⟩)
          [rowC1]).el_bosque.storage_mm3 =
        round2 (pyMean (g.map (fun r => r.el_bosque_mm3))) ∧
      (DatabaseAggregationService.weekRecord (toDays ⟨2023, 12, 31⟩)
          [rowC1]).el_bosque.percentage =
        round2 (pyMean (g.map (fun r => r.el_bosque_pct))) ∧
      (DatabaseAggregationService.weekRecord (toDays ⟨2023, 12, 31⟩)
          [rowC1]).el_bosque.rainfall =
        round2 ((g.map (fun r => r.el_bosque_lluvia)).sum) ∧
      (DatabaseAggregationService.weekRecord (toDays ⟨2023, 12, 31⟩)
          [rowC1]).system_totals.total_mm3 =
        pyRound (pyMean (g.map (fun r => (pyInt r.total_mm3 : ℚ)))) ∧
      (DatabaseAggregationService.weekRecord (toDays ⟨2023, 12, 31⟩)
          [rowC1]).system_totals.total_percentage =
        round2 (pyMean (g.map (fun r => r.total_pct))) :=
  (DatabaseAggregationService.aggregate_weekly_spec [rowC1]
    (List.cons_ne_nil _ _)).1
    (DatabaseAggregationService.weekRecord (toDays ⟨2023, 12, 31⟩) [rowC1])
    (List.Mem.head _)

/-- Claim C1 as stated is false for a group holding one row with the
non-integral total 100.7: the code averages the `int()`-truncated totals and
outputs 100, while the mean of the raw totals rounded to the nearest integer
is 101. -/
theorem aggregate_weekly_total_mm3_cex :
    (DatabaseAggregationService.aggregate_weekly [rowCx]).map
      (fun rec => rec.system_totals.total_mm3) = [100] ∧
    pyRound (pyMean ([rowCx].map (fun r => r.total_mm3))) = 101 ∧
    (100 : Int) ≠ 101 := by
  have hint : pyInt ((1007 : ℚ)/10) = 100 := by
    rw [pyInt_eq_floor _ (by norm_num)]
    rw [Int.floor_eq_iff]
    norm_num
  refine ⟨?_, ?_, by decide⟩
  · have h1 : (DatabaseAggregationService.aggregate_weekly [rowCx]).map
        (fun rec => rec.system_totals.total_mm3) =
        [pyRound (pyMean ([rowCx].map (fun r => (pyInt r.total_mm3 : ℚ))))] := rfl
    rw [h1]
    have h2 : [rowCx].map (fun r => (pyInt r.total_mm3 : ℚ)) = [(100 : ℚ)] := by
      simp only [List.map_cons, List.map_nil]
      rw [show rowCx.total_mm3 = (1007 : ℚ)/10 from rfl, hint]
      norm_num
    rw [h2]
    have h3 : pyMean [(100 : ℚ)] = 100 := by
      simp [pyMean]
    rw [h3]
    have h4 : pyRound (100 : ℚ) = 100 := by
      simpa using pyRound_eq_of_lt (100 : ℚ) 100 (by norm_num) (by norm_num) (by norm_num)
    rw [h4]
  · have h5 : [rowCx].map (fun r => r.total_mm3) = [(1007 : ℚ)/10] := rfl
    rw [h5]
    have h6 : pyMean [(1007 : ℚ)/10] = 1007/10 := by
      simp [pyMean]
    rw [h6]
    simpa using pyRound_eq_of_gt ((1007 : ℚ)/10) 100 (by norm_num) (by norm_num)
      (by norm_num)
